import Mathlib

/-!
Verification of the UDISE school-data backend (services/schoolService.js,
services/authService.js, controllers/schoolController.js and the auth
middleware) against its natural-language specification.

The JavaScript is shallowly embedded: the PostgreSQL table backing the
service is a list of rows, a row is an association list from column name
to stored text (an absent binding is SQL NULL), and the unique indexes
live next to the table.  Each service function is translated statement by
statement; Postgres behaviours the code relies on (ON CONFLICT arbiter
inference, NULLIF/CAST/COALESCE, unique-index conflict checking) are
modelled explicitly.
-/

namespace UdiseBase

/-! ## JavaScript values

Ingested records are JSON bodies, so a field value is one of: undefined
(missing), null, a string, a number, a boolean, or a structured value.
A structured value is carried together with its JSON.stringify rendering,
which is all the service ever does with it. -/

inductive JSVal where
  | undefined
  | null
  | str (s : String)
  | num (n : Int)
  | bool (b : Bool)
  | obj (json : String)
deriving DecidableEq

/-- A record of an ingest batch: JS object as an association list
(Object.keys order). -/
abbrev Rec := List (String × JSVal)

/-- Field access school[col]: a missing field reads as undefined. -/
def jsGet (r : Rec) (c : String) : JSVal :=
  match r.find? (fun p => p.1 == c) with
  | some p => p.2
  | none => .undefined

/-- JS truthiness, as used by the fallback normalization s[c] || "NA". -/
def jsTruthy : JSVal → Bool
  | .undefined => false
  | .null => false
  | .str s => s ≠ ""
  | .num n => n ≠ 0
  | .bool b => b
  | .obj _ => true

/-- typeof val === "object" holds for null and for structured values. -/
def typeofObject : JSVal → Bool
  | .null => true
  | .obj _ => true
  | _ => false

/-- JSON.stringify as applied by the normalization code (only ever reached
for null and structured values). -/
def jsonStringify : JSVal → String
  | .null => "null"
  | .obj j => j
  | .str s => s
  | .num n => toString n
  | .bool b => cond b "true" "false"
  | .undefined => "undefined"

/-- The text a normalized scalar ends up as once pg-format renders it as a
SQL literal inside VALUES %L: strings keep their content, numbers their
decimal rendering, and booleans become the Postgres literals t / f
(node-pg-format quotes true as t and false as f).  null and undefined
never reach this point (normalization maps them away first). -/
def pgLiteralText : JSVal → String
  | .str s => s
  | .num n => toString n
  | .bool b => cond b "t" "f"
  | .null => "NULL"
  | .undefined => "NULL"
  | .obj j => j

/-- Per-value normalization of the ay branch (schoolService.js lines
134-141): empty string, undefined or null become "NA"; structured values
their JSON text; anything else passes through. -/
def normalizeAy (v : JSVal) : JSVal :=
  if v == .str "" || v == .undefined || v == .null then .str "NA"
  else if typeofObject v then .str (jsonStringify v)
  else v

/-- Per-value normalization of the fallback branch (schoolService.js lines
154-159): typeof s[c] === "object" ? JSON.stringify(s[c]) : s[c] || "NA".
Note null is typeof "object" here, and every falsy scalar hits || "NA". -/
def normalizeFallback (v : JSVal) : JSVal :=
  if typeofObject v then .str (jsonStringify v)
  else if jsTruthy v then v
  else .str "NA"

/-- Stored text of a field value on the ay branch. -/
def storedAy (v : JSVal) : String := pgLiteralText (normalizeAy v)

/-- Stored text of a field value on the fallback branch. -/
def storedFallback (v : JSVal) : String := pgLiteralText (normalizeFallback v)

/-! ## Database model -/

abbrev ColName := String

/-- A stored row: column name to stored text.  A column without a binding
reads as SQL NULL, which is how rows predating an ALTER TABLE ADD COLUMN
present the new column. -/
abbrev Row := List (ColName × String)

/-- SQL column reference on a row: NULL (none) when unbound. -/
def rowGet (r : Row) (c : ColName) : Option String :=
  match r.find? (fun p => p.1 == c) with
  | some p => some p.2
  | none => none

structure Table where
  cols : List ColName
  rows : List Row
deriving DecidableEq

/-- A unique index: its name and its column list. -/
structure IndexDef where
  name : String
  cols : List ColName
deriving DecidableEq

/-- The persistent state the service touches: the udise_data table (none
until first created) and the unique indexes on it. -/
structure DbState where
  table : Option Table
  indexes : List IndexDef
deriving DecidableEq

structure DbError where
  code : String
  message : String
deriving DecidableEq

def arbiterMissingErr : DbError :=
  ⟨"42P10", "there is no unique or exclusion constraint matching the ON CONFLICT specification"⟩

def duplicateKeyErr : DbError :=
  ⟨"23505", "duplicate key value violates unique constraint"⟩

def undefinedColumnErr : DbError :=
  ⟨"42703", "column does not exist"⟩

/-! ## saveSchoolsToDb (schoolService.js lines 80-175) -/

structure SaveResult where
  success : Bool
  count : Nat
deriving DecidableEq

/-- Object.keys(schoolsData[0]). -/
def inputColumnsOf (batch : List Rec) : List ColName :=
  (batch.headD []).map Prod.fst

/-- One VALUES row: each input column normalized then rendered to text. -/
def mkRow (cols : List ColName) (norm : JSVal → String) (rec : Rec) : Row :=
  cols.map (fun c => (c, norm (jsGet rec c)))

/-- The key a row exposes to a unique index: defined only when every
indexed column is non-NULL (Postgres unique indexes never match rows with
a NULL in an indexed column). -/
def keysOf (cols : List ColName) (r : Row) : Option (List String) :=
  let vs := cols.map (rowGet r)
  if vs.all Option.isSome then some (vs.map (fun o => o.getD "")) else none

/-- Two rows conflict on an index when both expose the same full key. -/
def conflictsOn (cols : List ColName) (r e : Row) : Bool :=
  match keysOf cols r, keysOf cols e with
  | some k1, some k2 => k1 == k2
  | _, _ => false

/-- Existing data already violates a prospective unique index. -/
def hasDupKeys (cols : List ColName) (rows : List Row) : Bool :=
  let ks := rows.filterMap (keysOf cols)
  ks ≠ ks.dedup

/-- CREATE UNIQUE INDEX IF NOT EXISTS name ON udise_data (cols): a no-op
when an index of that name exists; otherwise the columns must exist and
the current rows must not contain duplicate keys. -/
def createUniqueIndex (nm : String) (cols : List ColName) (t : Table)
    (idxs : List IndexDef) : Except DbError (List IndexDef) :=
  if idxs.any (fun i => i.name == nm) then .ok idxs
  else if !(cols.all t.cols.contains) then .error undefinedColumnErr
  else if hasDupKeys cols t.rows then
    .error ⟨"23505", "could not create unique index"⟩
  else .ok (idxs ++ [⟨nm, cols⟩])

/-- Multi-row INSERT ... ON CONFLICT (arb) DO NOTHING ... RETURNING: rows
conflicting on the arbiter index are skipped; a row that instead violates
another unique index raises 23505; rowCount counts rows actually
inserted. -/
def insertRows (arb : List ColName) (others : List (List ColName)) :
    List Row → Nat → List Row → Except DbError (List Row × Nat)
  | cur, cnt, [] => .ok (cur, cnt)
  | cur, cnt, r :: rest =>
    if cur.any (conflictsOn arb r) then insertRows arb others cur cnt rest
    else if others.any (fun oc => cur.any (conflictsOn oc r)) then
      .error duplicateKeyErr
    else insertRows arb others (cur ++ [r]) (cnt + 1) rest

/-- ALTER TABLE ADD COLUMN for every batch column the table lacks
(the loop over inputColumns against information_schema.columns). -/
def reconcileCols (cols inputColumns : List ColName) : List ColName :=
  cols ++ inputColumns.filter (fun c => !cols.contains c)

/-- The arbiter check and conflict-skipping insert shared by the two
key-shape arms of the save body: ON CONFLICT (arb) DO NOTHING needs some
unique index on exactly those columns, then the insert commits the grown
row set. -/
def runInsert (arb : List ColName) (idxs : List IndexDef) (t : Table)
    (values : List Row) : Except DbError (DbState × SaveResult) :=
  if !(idxs.any (fun i => i.cols == arb)) then .error arbiterMissingErr
  else
    match insertRows arb ((idxs.filter (fun i => i.cols ≠ arb)).map IndexDef.cols)
        t.rows 0 values with
    | .error e => .error e
    | .ok (rows1, cnt) =>
      .ok ({ table := some { t with rows := rows1 }, indexes := idxs },
        ⟨true, cnt⟩)

/-- The transaction body of saveSchoolsToDb: table creation or column
addition, DROP INDEX IF EXISTS idx_udise_code_unique, then per key shape
the index creation, value normalization and the conflict-skipping
insert. -/
def saveBody (st : DbState) (batch : List Rec) :
    Except DbError (DbState × SaveResult) :=
  let inputColumns := inputColumnsOf batch
  let t : Table :=
    match st.table with
    | none => { cols := inputColumns, rows := [] }
    | some t0 => { t0 with cols := reconcileCols t0.cols inputColumns }
  let idxs1 := st.indexes.filter (fun i => i.name ≠ "idx_udise_code_unique")
  if inputColumns.contains "ay" then
    match createUniqueIndex "idx_udise_ay_unique" ["udise_code", "ay"] t idxs1 with
    | .error e => .error e
    | .ok idxs2 =>
      runInsert ["udise_code", "ay"] idxs2 t (batch.map (mkRow inputColumns storedAy))
  else
    runInsert ["udise_code"] idxs1 t (batch.map (mkRow inputColumns storedFallback))

/-- saveSchoolsToDb: empty input short-circuits with success false;
otherwise the body runs inside BEGIN/COMMIT, and any error ROLLBACKs
(the state reverts) and is rethrown. -/
def saveSchoolsToDb (st : DbState) (batch : List Rec) :
    DbState × Except DbError SaveResult :=
  if batch.isEmpty then (st, .ok ⟨false, 0⟩)
  else
    match saveBody st batch with
    | .ok (st1, r) => (st1, .ok r)
    | .error e => (st, .error e)

/-! ## Read operations -/

/-- JS truthiness of an optional string argument (the guards
if (state), if (ay) and so on: absent and empty string both skip). -/
def optTruthyS : Option String → Bool
  | some s => s ≠ ""
  | none => false

/-- ORDER BY, modelled as a stable structural-recursion sort (Mathlib's
insertion sort), so that results evaluate on concrete inputs. -/
def orderBy {h : Type} (le : h → h → Bool) (l : List h) : List h :=
  List.insertionSort (fun a b => le a b = true) l

/-- Code-point lexicographic comparison of character lists. -/
def charsLe : List Char → List Char → Bool
  | [], _ => true
  | _ :: _, [] => false
  | x :: xs, y :: ys =>
    if x.toNat < y.toNat then true
    else if y.toNat < x.toNat then false
    else charsLe xs ys

/-- Text ordering for the ORDER BY clauses (collation modelled as
code-point order). -/
def strLe (a b : String) : Bool := charsLe a.toList b.toList

/-! ### getExistingCodes (schoolService.js lines 41-78) -/

/-- WHERE udise_code IN (codes). -/
def codeMatch (codes : List String) (r : Row) : Bool :=
  match rowGet r "udise_code" with
  | some u => codes.contains u
  | none => false

/-- getExistingCodes: empty input or missing table give []; the AND ay =
filter is added only when the ay column exists and an ay value was
supplied (truthy); otherwise matching falls back to udise_code alone. -/
def getExistingCodes (st : DbState) (codes : List String) (ay : Option String) :
    List String :=
  if codes.isEmpty then []
  else
    match st.table with
    | none => []
    | some t =>
      let rows :=
        if t.cols.contains "ay" && optTruthyS ay then
          t.rows.filter (fun r => codeMatch codes r && rowGet r "ay" == ay)
        else
          t.rows.filter (codeMatch codes)
      rows.filterMap (fun r => rowGet r "udise_code")

/-! ### searchSchoolsInDb (schoolService.js lines 203-249, paginated) -/

structure SearchResult where
  data : List Row
  total : Nat
  page : Option Nat
  limit : Option Nat
deriving DecidableEq

/-- The conjunctive WHERE built from the optional state filter and the
district = ANY(districts) filter. -/
def matchesSearch (state : Option String) (districts : Option (List String))
    (r : Row) : Bool :=
  (cond (optTruthyS state) (rowGet r "state" == state) true) &&
  (match districts with
   | some ds => if ds.isEmpty then true else
       match rowGet r "district" with
       | some d => ds.contains d
       | none => false
   | none => true)

/-- searchSchoolsInDb: a count query and a paged data query over the same
predicate, with offset (page - 1) * limit; a missing table (42P01) is
caught and returned as data [] with total 0 (that branch carries no page
or limit fields). -/
def searchSchoolsInDb (st : DbState) (state : Option String)
    (districts : Option (List String)) (page limit : Nat) : SearchResult :=
  match st.table with
  | none => { data := [], total := 0, page := none, limit := none }
  | some t =>
    let offset := (page - 1) * limit
    let filt := t.rows.filter (matchesSearch state districts)
    { data := (filt.drop offset).take limit, total := filt.length,
      page := some page, limit := some limit }

/-! ### getFiltersFromDb (schoolService.js lines 177-196) -/

/-- Push a district under its state, deduplicating, as the hierarchy
building loop does.  Districts may be NULL. -/
def hierPush (h : List (String × List (Option String))) (s : String)
    (d : Option String) : List (String × List (Option String)) :=
  match h.find? (fun p => p.1 == s) with
  | none => h ++ [(s, [d])]
  | some _ =>
    h.map (fun p => if p.1 == s then (p.1, if p.2.contains d then p.2 else p.2 ++ [d]) else p)

/-- Lexicographic order used to model ORDER BY state, district (NULL
districts sort last, as Postgres defaults to NULLS LAST ascending). -/
def pairLe (a b : String × Option String) : Bool :=
  (strLe a.1 b.1 && a.1 ≠ b.1) || (a.1 == b.1 &&
    (match a.2, b.2 with
     | some x, some y => strLe x y
     | none, some _ => false
     | _, none => true))

/-- SELECT DISTINCT state, district WHERE state IS NOT NULL AND state !=
NA ORDER BY state, district. -/
def distinctStateDistrict (t : Table) : List (String × Option String) :=
  orderBy pairLe ((t.rows.filterMap (fun r =>
      match rowGet r "state" with
      | some s => if s ≠ "NA" then some (s, rowGet r "district") else none
      | none => none)).dedup)

/-- getFiltersFromDb: the state to districts hierarchy; a missing table
(42P01) is caught and returned as the empty mapping. -/
def getFiltersFromDb (st : DbState) : List (String × List (Option String)) :=
  match st.table with
  | none => []
  | some t => (distinctStateDistrict t).foldl (fun h p => hierPush h p.1 p.2) []

/-! ### getAcademicYears (schoolService.js lines 441-453) -/

/-- SELECT DISTINCT ay WHERE ay IS NOT NULL AND ay != NA ORDER BY ay
DESC; 42P01 is caught and returned as []. -/
def getAcademicYears (st : DbState) : List String :=
  match st.table with
  | none => []
  | some t =>
    orderBy (fun a b => strLe b a)
      (((t.rows.filterMap (fun r => rowGet r "ay")).filter (fun a => a ≠ "NA")).dedup)

/-! ### getAllFilterOptions (schoolService.js lines 455-523) -/

structure FilterOptions where
  states : List String
  districtsByState : List (String × List (Option String))
  blocksByStateDistrict : List (String × List (Option String))
  academicYears : List String
deriving DecidableEq

def emptyFilterOptions : FilterOptions :=
  { states := [], districtsByState := [], blocksByStateDistrict := [],
    academicYears := [] }

/-- Lexicographic order on (state, district, block) triples for ORDER BY. -/
def tripleLe (a b : String × String × String) : Bool :=
  (strLe a.1 b.1 && a.1 ≠ b.1) || (a.1 == b.1 &&
    ((strLe a.2.1 b.2.1 && a.2.1 ≠ b.2.1) || (a.2.1 == b.2.1 && strLe a.2.2 b.2.2)))

/-- getAllFilterOptions: four concurrent DISTINCT queries folded into the
states list, the state to districts mapping, the state|district to blocks
mapping and the academic years; 42P01 is caught and returned as the empty
structure. -/
def getAllFilterOptions (st : DbState) : FilterOptions :=
  match st.table with
  | none => emptyFilterOptions
  | some t =>
    let states := orderBy strLe ((t.rows.filterMap (fun r => rowGet r "state")).dedup)
    let sdPairs := orderBy (fun a b => strLe a.1 b.1 && (a.1 ≠ b.1 || strLe a.2 b.2))
      ((t.rows.filterMap (fun r =>
        match rowGet r "state", rowGet r "district" with
        | some s, some d => some (s, d)
        | _, _ => none)).dedup)
    let sdbTriples := orderBy tripleLe ((t.rows.filterMap (fun r =>
        match rowGet r "state", rowGet r "district", rowGet r "block" with
        | some s, some d, some b => some (s, d, b)
        | _, _, _ => none)).dedup)
    { states := states,
      districtsByState := sdPairs.foldl (fun h p => hierPush h p.1 (some p.2)) [],
      blocksByStateDistrict :=
        sdbTriples.foldl (fun h p => hierPush h (p.1 ++ "|" ++ p.2.1) (some p.2.2)) [],
      academicYears := getAcademicYears st }

/-! ### getDashboardStats (schoolService.js lines 251-439) -/

structure Filters where
  state : Option String
  district : Option String
  block : Option String
  ay : Option String
deriving DecidableEq

/-- One GROUP BY bucket (the grouped value may be NULL) with its
COUNT(*). -/
structure NameCount where
  name : Option String
  count : Nat
deriving DecidableEq

structure Stats where
  totalRecords : Nat
  uniqueUdise : Nat
  uniqueStates : Nat
  uniqueDistricts : Nat
  uniqueBlocks : Nat
  uniqueClusters : Nat
  uniqueVillages : Nat
  uniqueAcademicYears : Nat
  totalStudents : Int
  totalBoyStudents : Int
  totalGirlStudents : Int
  topStates : List NameCount
  topDistricts : List NameCount
  topBlocks : List NameCount
  schoolsByCategory : List NameCount
  schoolsByManagement : List NameCount
  appliedFilters : Filters
deriving DecidableEq

/-- getEmptyStats(): every count zero, every breakdown empty, no applied
filters. -/
def emptyStats : Stats :=
  { totalRecords := 0, uniqueUdise := 0, uniqueStates := 0,
    uniqueDistricts := 0, uniqueBlocks := 0, uniqueClusters := 0,
    uniqueVillages := 0, uniqueAcademicYears := 0, totalStudents := 0,
    totalBoyStudents := 0, totalGirlStudents := 0, topStates := [],
    topDistricts := [], topBlocks := [], schoolsByCategory := [],
    schoolsByManagement := [],
    appliedFilters := ⟨none, none, none, none⟩ }

/-- The conjunctive WHERE clause assembled from the truthy filters. -/
def matchesFilters (f : Filters) (r : Row) : Bool :=
  (cond (optTruthyS f.state) (rowGet r "state" == f.state) true) &&
  (cond (optTruthyS f.district) (rowGet r "district" == f.district) true) &&
  (cond (optTruthyS f.block) (rowGet r "block" == f.block) true) &&
  (cond (optTruthyS f.ay) (rowGet r "ay" == f.ay) true)

def digitsToNat (cs : List Char) : Nat :=
  cs.foldl (fun a c => a * 10 + (c.toNat - 48)) 0

/-- Whitespace as Postgres's integer parser skips it (isspace). -/
def pgSpace (c : Char) : Bool :=
  c == ' ' || (9 ≤ c.toNat && c.toNat ≤ 13)

/-- Strip leading and trailing whitespace. -/
def trimWs (cs : List Char) : List Char :=
  ((cs.dropWhile pgSpace).reverse.dropWhile pgSpace).reverse

/-- The syntax Postgres accepts for CAST(text AS INTEGER): surrounding
whitespace trimmed, an optional sign, then one or more digits.  Anything
else raises 22P02; the int4 range check on the parsed value follows in
pgCastInt. -/
def pgParseInt (s : String) : Option Int :=
  match trimWs s.toList with
  | [] => none
  | '+' :: rest =>
    if rest ≠ [] ∧ rest.all Char.isDigit then some (digitsToNat rest) else none
  | '-' :: rest =>
    if rest ≠ [] ∧ rest.all Char.isDigit then some (-(digitsToNat rest : Int)) else none
  | cs =>
    if cs.all Char.isDigit then some (digitsToNat cs) else none

def castErr : DbError := ⟨"22P02", "invalid input syntax for type integer"⟩

def castRangeErr : DbError := ⟨"22003", "value is out of range for type integer"⟩

/-- CAST(text AS INTEGER): non-integer text raises 22P02, and integer
text whose value falls outside the int4 range raises 22003. -/
def pgCastInt (s : String) : Except DbError Int :=
  match pgParseInt s with
  | some n =>
    if n < -2147483648 ∨ 2147483647 < n then .error castRangeErr
    else .ok n
  | none => .error castErr

/-- COALESCE(CAST(NULLIF(col, 'NA') AS INTEGER), 0), the per-value
expression of the student sums (schoolService.js lines 357-376): NULL and
the NA sentinel become 0, everything else is cast (and a failing cast
aborts the whole query). -/
def coalesceCastNullif (v : Option String) : Except DbError Int :=
  match v with
  | none => .ok 0
  | some s => if s == "NA" then .ok 0 else pgCastInt s

/-- Add two cast results, keeping the first cast error. -/
def addExcept (a b : Except DbError Int) : Except DbError Int :=
  match a, b with
  | .error e, _ => .error e
  | .ok _, .error e => .error e
  | .ok x, .ok y => .ok (x + y)

/-- Per-row term of the total_students SUM. -/
def rowStudentTotal (r : Row) : Except DbError Int :=
  addExcept
    (addExcept (coalesceCastNullif (rowGet r "totalStudents"))
      (coalesceCastNullif (rowGet r "total_students")))
    (coalesceCastNullif (rowGet r "caste_total"))

/-- Per-row term of the total_boy_students SUM. -/
def rowStudentBoy (r : Row) : Except DbError Int :=
  addExcept (coalesceCastNullif (rowGet r "totalBoyStudents"))
    (coalesceCastNullif (rowGet r "caste_total_boy"))

/-- Per-row term of the total_girl_students SUM. -/
def rowStudentGirl (r : Row) : Except DbError Int :=
  addExcept (coalesceCastNullif (rowGet r "totalGirlStudents"))
    (coalesceCastNullif (rowGet r "caste_total_girl"))

/-- SUM over the filtered rows, propagating the first cast error. -/
def sumExcept (f : Row → Except DbError Int) : List Row → Except DbError Int
  | [] => .ok 0
  | r :: rest => addExcept (f r) (sumExcept f rest)

/-- COUNT(DISTINCT col): distinct non-NULL values. -/
def distinctCount (rows : List Row) (c : ColName) : Nat :=
  ((rows.filterMap (fun r => rowGet r c)).dedup).length

/-- SELECT col, COUNT(*) GROUP BY col ORDER BY count DESC (GROUP BY keeps
a NULL bucket). -/
def groupCounts (c : ColName) (rows : List Row) : List NameCount :=
  let vals := rows.map (fun r => rowGet r c)
  orderBy (fun a b => b.count ≤ a.count)
    (vals.dedup.map (fun v => ⟨v, @List.count _ instBEqOfDecidableEq v vals⟩))

/-- Every column the dashboard statement bundle references; a missing one
makes its query fail with undefined column, which getDashboardStats
rethrows. -/
def dashboardCols : List ColName :=
  ["udise_code", "state", "district", "block", "cluster", "village", "ay",
   "totalStudents", "total_students", "caste_total", "totalBoyStudents",
   "caste_total_boy", "totalGirlStudents", "caste_total_girl",
   "school_category", "school_management"]

/-- getDashboardStats: a missing table short-circuits to getEmptyStats();
otherwise the count, distinct-count, student-sum, top-5 and breakdown
queries all run over the same filtered row set and are assembled into one
statistics object. -/
def getDashboardStats (st : DbState) (f : Filters) : Except DbError Stats :=
  match st.table with
  | none => .ok emptyStats
  | some t =>
    if !(dashboardCols.all t.cols.contains) then .error undefinedColumnErr
    else
      let rows := t.rows.filter (matchesFilters f)
      match sumExcept rowStudentTotal rows, sumExcept rowStudentBoy rows,
          sumExcept rowStudentGirl rows with
      | .error e, _, _ => .error e
      | .ok _, .error e, _ => .error e
      | .ok _, .ok _, .error e => .error e
      | .ok ts, .ok bs, .ok gs =>
        .ok
        { totalRecords := rows.length,
          uniqueUdise := distinctCount rows "udise_code",
          uniqueStates := distinctCount rows "state",
          uniqueDistricts := distinctCount rows "district",
          uniqueBlocks := distinctCount rows "block",
          uniqueClusters := distinctCount rows "cluster",
          uniqueVillages := distinctCount rows "village",
          uniqueAcademicYears :=
            (((rows.filterMap (fun r => rowGet r "ay")).filter (fun a => a ≠ "NA")).dedup).length,
          totalStudents := ts,
          totalBoyStudents := bs,
          totalGirlStudents := gs,
          topStates := (groupCounts "state" rows).take 5,
          topDistricts := (groupCounts "district" rows).take 5,
          topBlocks := (groupCounts "block" rows).take 5,
          schoolsByCategory := groupCounts "school_category" rows,
          schoolsByManagement := groupCounts "school_management" rows,
          appliedFilters := f }

/-! ## Authentication (services/authService.js and the verifyToken
middleware of the auth controller) -/

structure UserRec where
  user_id : Nat
  email : String
  name : String
  role : String
  status : String
deriving DecidableEq

structure TokenRec where
  user_id : Nat
  token : String
  expires_at : Nat
deriving DecidableEq

/-- The users and auth_tokens tables plus NOW() at query time. -/
structure AuthDb where
  users : List UserRec
  tokens : List TokenRec
  now : Nat
deriving DecidableEq

structure AuthResult where
  token : String
  user : UserRec
deriving DecidableEq

/-- The join-and-filter of authService.verifyToken (authService.js lines
37-58): auth_tokens joined to users on user_id, restricted to the
presented token, an expiry in the future, and an active user. -/
def verifyTokenQuery (db : AuthDb) (tok : String) : List (TokenRec × UserRec) :=
  (db.tokens.flatMap (fun t =>
      (db.users.filter (fun u => u.user_id == t.user_id)).map (fun u => (t, u)))).filter
    (fun p => p.1.token == tok && db.now < p.1.expires_at && p.2.status == "active")

/-- authService.verifyToken: null when no row matches, otherwise the
token with its user. -/
def verifyToken (db : AuthDb) (tok : String) : Option AuthResult :=
  (verifyTokenQuery db tok).head?.map (fun p => ⟨p.1.token, p.2⟩)

/-- Outcome of the verifyToken middleware: 401 with a message, or the
request proceeds with req.user set. -/
inductive MwOutcome where
  | denied401 (msg : String)
  | granted (u : UserRec)
deriving DecidableEq

def isGranted : MwOutcome → Bool
  | .granted _ => true
  | .denied401 _ => false

/-- JS String.prototype.replace with a string pattern: only the first
occurrence is replaced (here, removed). -/
def replaceFirst (s pat : String) : String :=
  match s.splitOn pat with
  | [] => s
  | [x] => x
  | x :: y :: rest => x ++ String.intercalate pat (y :: rest)

/-- req.headers.authorization?.replace("Bearer ", ""). -/
def extractToken (header : Option String) : Option String :=
  header.map (fun s => replaceFirst s "Bearer ")

/-- The verifyToken middleware (auth controller lines 54-74): a missing
or empty token and a null service result both deny with 401; otherwise
the user is attached and the request proceeds. -/
def verifyTokenMw (db : AuthDb) (header : Option String) : MwOutcome :=
  match extractToken header with
  | none => .denied401 "No token provided"
  | some tk =>
    if tk = "" then .denied401 "No token provided"
    else
      match verifyToken db tk with
      | none => .denied401 "Invalid or expired token"
      | some a => .granted a.user

/-! ## saveSchools controller (controllers/schoolController.js lines
75-100) -/

inductive SaveResponse where
  | badRequest (msg : String)
  | okJson (success : Bool) (message : String) (count : Nat)
  | serverError (message : String) (error : String)
deriving DecidableEq

/-- The saveSchools handler: 400 for a non-array or empty body; on
success the count is echoed; a 23505 escaping the conflict clause is
reported as success with count 0; every other error is a 500. -/
def saveSchools (st : DbState) (body : Option (List Rec)) : SaveResponse :=
  match body with
  | none => .badRequest "No data provided"
  | some batch =>
    if batch.isEmpty then .badRequest "No data provided"
    else
      match (saveSchoolsToDb st batch).2 with
      | .ok r =>
        .okJson true ("Saved " ++ toString r.count ++ " records.") r.count
      | .error e =>
        if e.code = "23505" then
          .okJson true "Some records were skipped (already exist)." 0
        else .serverError "Database error" e.message

/-! ## Concrete fixtures used by the theorems below -/

/-- The state before any ingest: no table, no indexes. -/
def freshDb : DbState := ⟨none, []⟩

/-- A one-record batch whose field set lacks ay. -/
def noAyBatch : List Rec := [[("udise_code", JSVal.str "123")]]

def noFilters : Filters := ⟨none, none, none, none⟩

/-- A table created by the oldest deployed schema (udise_code TEXT
UNIQUE), whose implicit constraint index is not named
idx_udise_code_unique and therefore survives the DROP INDEX: on such a
state the fallback insert path of saveSchoolsToDb does run to
completion. -/
def legacyDb : DbState :=
  ⟨some ⟨["udise_code", "students"], []⟩,
   [⟨"udise_data_udise_code_key", ["udise_code"]⟩]⟩

/-- A record whose students field is the number 0 and whose field set
lacks ay. -/
def zeroBatch : List Rec :=
  [[("udise_code", JSVal.str "77"), ("students", JSVal.num 0)]]

/-- The candidate student-count columns the dashboard sums cover. -/
def studentCols : List ColName :=
  ["totalStudents", "total_students", "caste_total", "totalBoyStudents",
   "caste_total_boy", "totalGirlStudents", "caste_total_girl"]

/-- A stored value casts without error (it is NULL, the NA sentinel, or
integer text whose value lies within the int4 range). -/
def castOk (v : Option String) : Bool :=
  match coalesceCastNullif v with
  | .ok _ => true
  | .error _ => false

/-- Modelled from the amended spec wording: the contribution of one value
to a student sum — 0 for NULL and the NA sentinel, the parsed integer for
in-range integer text (non-integer and out-of-range text have no
contribution because the whole query fails instead). -/
def specContribution (v : Option String) : Int :=
  match v with
  | none => 0
  | some s => if s = "NA" then 0 else (pgParseInt s).getD 0

/-- Spec-side per-row total-students term. -/
def specRowTotal (r : Row) : Int :=
  specContribution (rowGet r "totalStudents") +
    specContribution (rowGet r "total_students") +
    specContribution (rowGet r "caste_total")

/-- Spec-side per-row boy-students term. -/
def specRowBoy (r : Row) : Int :=
  specContribution (rowGet r "totalBoyStudents") +
    specContribution (rowGet r "caste_total_boy")

/-- Spec-side per-row girl-students term. -/
def specRowGirl (r : Row) : Int :=
  specContribution (rowGet r "totalGirlStudents") +
    specContribution (rowGet r "caste_total_girl")

/-- A dashboard-shaped row: every column the statistics queries
reference, with the given udise code, state, category and totalStudents
text and NA in the remaining student columns. -/
def mkDashRow (u s cat ts : String) : Row :=
  [("udise_code", u), ("state", s), ("district", "D"), ("block", "B"),
   ("cluster", "C"), ("village", "V"), ("ay", "2023-24"),
   ("totalStudents", ts), ("total_students", "NA"), ("caste_total", "NA"),
   ("totalBoyStudents", "NA"), ("caste_total_boy", "NA"),
   ("totalGirlStudents", "NA"), ("caste_total_girl", "NA"),
   ("school_category", cat), ("school_management", "Govt")]

/-- A table holding one row whose totalStudents text is the non-numeric
abc. -/
def badCastDb : DbState :=
  ⟨some ⟨dashboardCols, [mkDashRow "1" "X" "Primary" "abc"]⟩, []⟩

/-- A small populated dashboard state used to witness the aggregate
consistency result. -/
def dashDb : DbState :=
  ⟨some ⟨dashboardCols,
    [mkDashRow "1" "X" "Primary" "10", mkDashRow "2" "X" "Primary" "20",
     mkDashRow "3" "Y" "Sec" "NA"]⟩, []⟩

/-- The statistics object dashDb evaluates to. -/
def dashStatsVal : Stats :=
  match getDashboardStats dashDb noFilters with
  | .ok s => s
  | .error _ => emptyStats

/-- Rows currently stored. -/
def tableRowCount (st : DbState) : Nat :=
  match st.table with
  | none => 0
  | some t => t.rows.length

/-- A two-record batch carrying the composite natural key. -/
def ayBatch : List Rec :=
  [[("udise_code", JSVal.str "123"), ("ay", JSVal.str "2023-24"),
    ("state", JSVal.str "X")],
   [("udise_code", JSVal.str "124"), ("ay", JSVal.str "2023-24"),
    ("state", JSVal.str "Y")]]

/-- The state after ingesting ayBatch into the fresh database. -/
def ayDb1 : DbState := (saveSchoolsToDb freshDb ayBatch).1

/-! ## Theorems -/

/-- C1: on a batch without an ay field against a fresh database,
saveSchoolsToDb drops idx_udise_code_unique, creates no index at all, and
its ON CONFLICT (udise_code) insert then fails for want of an arbiter
unique index, rolling the call back — so no (udise_code) uniqueness index
is active after the call, contrary to the claim that one is. -/
theorem saveSchools_noAy_leaves_no_code_index :
    saveSchoolsToDb freshDb noAyBatch = (freshDb, .error arbiterMissingErr) ∧
      (saveSchoolsToDb freshDb noAyBatch).1.indexes = [] := by
  constructor <;> rfl

/-- C4: whenever saveSchoolsToDb fails, the whole transaction is rolled
back — the resulting state is exactly the pre-call state, so no partial
schema change and no partial insert survives — and the error is
rethrown. -/
theorem saveSchools_rollback_on_error (st : DbState) (batch : List Rec)
    (e : DbError) (h : (saveSchoolsToDb st batch).2 = .error e) :
    (saveSchoolsToDb st batch).1 = st := by
  unfold saveSchoolsToDb at h ⊢
  by_cases hb : batch.isEmpty
  · simp [hb] at h
  · simp only [hb, if_false]
    simp only [List.isEmpty_iff] at hb
    cases hsb : saveBody st batch with
    | ok v => simp [hsb, hb] at h ⊢
    | error e' => simp [hsb, hb]

/-- C4 witness: the fallback insert on a fresh database fails, and the
state after the call is the untouched pre-call state. -/
theorem saveSchools_rollback_on_error_witness :
    (saveSchoolsToDb freshDb noAyBatch).1 = freshDb :=
  saveSchools_rollback_on_error freshDb noAyBatch arbiterMissingErr (by rfl)

/-- C6: when the save service throws, the controller answers a 23505
duplicate-key violation with a 200 success carrying count 0, and every
other database error with a 500. -/
theorem saveSchools_controller_error_dispatch (st : DbState)
    (batch : List Rec) (e : DbError) (hne : batch.isEmpty = false)
    (h : (saveSchoolsToDb st batch).2 = .error e) :
    saveSchools st (some batch) =
      (if e.code = "23505" then
        .okJson true "Some records were skipped (already exist)." 0
      else .serverError "Database error" e.message) := by
  unfold saveSchools
  simp only [hne, if_false, Bool.false_eq_true, h]

/-- C6 witness: the arbiter-missing failure is not a 23505, so the
controller reports a 500 with the generic database-error message. -/
theorem saveSchools_controller_error_dispatch_witness :
    saveSchools freshDb (some noAyBatch) =
      .serverError "Database error" arbiterMissingErr.message := by
  have h := saveSchools_controller_error_dispatch freshDb noAyBatch
    arbiterMissingErr (by rfl) (by rfl)
  simpa using h

/-- C7: with no backing table, every read path returns its empty result —
search gives an empty page with total 0, the dashboard gives the
zero-valued statistics object, and the filter, academic-year and
filter-option reads give empty collections — instead of surfacing the
missing-table error. -/
theorem readOps_missing_table_empty (st : DbState) (h : st.table = none)
    (state : Option String) (districts : Option (List String))
    (page limit : Nat) (f : Filters) :
    searchSchoolsInDb st state districts page limit =
        { data := [], total := 0, page := none, limit := none } ∧
      getDashboardStats st f = .ok emptyStats ∧
      getFiltersFromDb st = [] ∧
      getAcademicYears st = [] ∧
      getAllFilterOptions st = emptyFilterOptions := by
  refine ⟨?_, ?_, ?_, ?_, ?_⟩ <;>
    simp [searchSchoolsInDb, getDashboardStats, getFiltersFromDb,
      getAcademicYears, getAllFilterOptions, h]

/-- C7 witness: the empty-result behaviour evaluated on the fresh
database. -/
theorem readOps_missing_table_empty_witness :
    searchSchoolsInDb freshDb (some "X") (some ["A"]) 1 50 =
        { data := [], total := 0, page := none, limit := none } ∧
      getDashboardStats freshDb noFilters = .ok emptyStats ∧
      getFiltersFromDb freshDb = [] ∧
      getAcademicYears freshDb = [] ∧
      getAllFilterOptions freshDb = emptyFilterOptions :=
  readOps_missing_table_empty freshDb (by rfl) (some "X") (some ["A"]) 1 50
    noFilters

/-- C10: when an ay value is supplied but the stored table has no ay
column, getExistingCodes silently falls back to matching on udise_code
alone, so a stored code is reported as existing even though no stored row
carries the requested (udise_code, ay) pair. -/
theorem getExistingCodes_ignores_ay_without_column (st : DbState) (t : Table)
    (codes : List String) (ayv c : String) (hst : st.table = some t)
    (hnoay : "ay" ∉ t.cols) (hne : ayv ≠ "") (hc : c ∈ codes)
    (hrow : ∃ r ∈ t.rows, rowGet r "udise_code" = some c)
    (hnopair : ∀ r ∈ t.rows, rowGet r "ay" ≠ some ayv) :
    c ∈ getExistingCodes st codes (some ayv) := by
  obtain ⟨r, hr, hu⟩ := hrow
  have hcodes : codes.isEmpty = false := by
    cases codes with
    | nil => simp at hc
    | cons x xs => rfl
  have hcol : t.cols.contains "ay" = false := by simpa using hnoay
  unfold getExistingCodes
  rw [hst]
  simp only [hcodes, Bool.false_eq_true, if_false, hcol, Bool.false_and,
    if_false]
  refine List.mem_filterMap.mpr ⟨r, List.mem_filter.mpr ⟨hr, ?_⟩, hu⟩
  unfold codeMatch
  rw [hu]
  simpa [List.contains, List.elem_iff] using hc

/-- C10 witness: the code 123 is stored only under no ay column, yet
check-existing with an ay argument still reports it as existing. -/
theorem getExistingCodes_ignores_ay_without_column_witness :
    ("123" : String) ∈
      getExistingCodes
        ⟨some ⟨["udise_code", "state"], [[("udise_code", "123"), ("state", "X")]]⟩, []⟩
        ["123", "999"] (some "2023-24") :=
  getExistingCodes_ignores_ay_without_column
    ⟨some ⟨["udise_code", "state"], [[("udise_code", "123"), ("state", "X")]]⟩, []⟩
    ⟨["udise_code", "state"], [[("udise_code", "123"), ("state", "X")]]⟩
    ["123", "999"] "2023-24" "123" (by rfl) (by decide) (by decide)
    (by decide) ⟨[("udise_code", "123"), ("state", "X")], by decide, by rfl⟩
    (by decide)

/-- C3 counterexample: the fallback branch stores the number 0 as the
sentinel NA, not as the text 0 — the save succeeds and the stored row
reads NA in the students column, refuting the claim that non-empty
non-null scalars pass through unchanged in every branch. -/
theorem saveSchools_fallback_stores_NA_for_zero :
    saveSchoolsToDb legacyDb zeroBatch =
      ({ table := some ⟨["udise_code", "students"],
           [[("udise_code", "77"), ("students", "NA")]]⟩,
         indexes := [⟨"udise_data_udise_code_key", ["udise_code"]⟩] },
       .ok ⟨true, 1⟩) ∧
      rowGet [("udise_code", "77"), ("students", "NA")] "students" =
        some "NA" := by
  constructor <;> rfl

/-- C3 amended: the ay branch normalizes exactly as the claim states
(empty, missing and null become NA, structured values their JSON text,
other scalars pass through, with pg-format rendering booleans as t / f);
the fallback branch instead sends every falsy scalar — including the
number 0 and false — to NA and sends null to the JSON text null. -/
theorem normalization_per_branch :
    ((∀ s : String, s ≠ "" → storedAy (.str s) = s) ∧
      storedAy (.str "") = "NA" ∧ storedAy .undefined = "NA" ∧
      storedAy .null = "NA" ∧ (∀ j, storedAy (.obj j) = j) ∧
      (∀ n : Int, storedAy (.num n) = toString n) ∧
      (∀ b : Bool, storedAy (.bool b) = cond b "t" "f")) ∧
    ((∀ s : String, s ≠ "" → storedFallback (.str s) = s) ∧
      storedFallback (.str "") = "NA" ∧ storedFallback .undefined = "NA" ∧
      storedFallback .null = "null" ∧ (∀ j, storedFallback (.obj j) = j) ∧
      (∀ n : Int, n ≠ 0 → storedFallback (.num n) = toString n) ∧
      storedFallback (.num 0) = "NA" ∧ storedFallback (.bool true) = "t" ∧
      storedFallback (.bool false) = "NA") := by
  refine ⟨⟨?_, rfl, rfl, rfl, fun j => rfl, fun n => rfl, fun b => ?_⟩,
    ⟨?_, rfl, rfl, rfl, fun j => rfl, ?_, rfl, rfl, rfl⟩⟩
  · intro s hs
    simp [storedAy, normalizeAy, typeofObject, pgLiteralText, hs]
  · cases b <;> rfl
  · intro s hs
    simp [storedFallback, normalizeFallback, typeofObject, jsTruthy,
      pgLiteralText, hs]
  · intro n hn
    simp [storedFallback, normalizeFallback, typeofObject, jsTruthy,
      pgLiteralText, hn]

/-- C3 amended witness: the per-branch normalization evaluated at the
hypothesis-bearing cases — a non-empty string on either branch and a
non-zero number on the fallback branch. -/
theorem normalization_per_branch_witness :
    storedAy (.str "X") = "X" ∧ storedFallback (.str "X") = "X" ∧
      storedFallback (.num 5) = toString (5 : Int) :=
  ⟨normalization_per_branch.1.1 "X" (by decide),
   normalization_per_branch.2.1 "X" (by decide),
   normalization_per_branch.2.2.2.2.2.2.1 5 (by decide)⟩

/-- C2 counterexample: a stored totalStudents value of abc does not
contribute 0 — it makes the whole aggregate query fail with the
invalid-input cast error, refuting the claim that any non-numeric text
contributes 0 instead of failing the query. -/
theorem dashboardStats_fails_on_nonNumeric :
    getDashboardStats badCastDb noFilters = .error castErr := by rfl

/-- castOk values are exactly what coalesceCastNullif maps to the
spec-side contribution. -/
theorem coalesceCastNullif_eq_spec (v : Option String)
    (h : castOk v = true) :
    coalesceCastNullif v = .ok (specContribution v) := by
  unfold castOk at h
  unfold coalesceCastNullif specContribution at *
  cases v with
  | none => rfl
  | some s =>
    by_cases hna : s = "NA"
    · simp [hna]
    · simp only [hna, if_false, beq_iff_eq] at *
      unfold pgCastInt at *
      cases hp : pgParseInt s with
      | none => rw [hp] at h; simp at h
      | some n =>
        by_cases hr : n < -2147483648 ∨ 2147483647 < n
        · simp [hp, hr] at h
        · simp [hp, hr]

/-- Error-free folding of a per-row term equals the sum of its pure
form. -/
theorem sumExcept_eq_sum (f : Row → Except DbError Int) (g : Row → Int)
    (rows : List Row) (h : ∀ r ∈ rows, f r = .ok (g r)) :
    sumExcept f rows = .ok ((rows.map g).sum) := by
  induction rows with
  | nil => rfl
  | cons r rest ih =>
    have hr : f r = .ok (g r) := h r (by simp)
    have ih' := ih (fun x hx => h x (by simp [hx]))
    simp [sumExcept, addExcept, hr, ih']

/-- C2 amended: a value participates in a student sum as 0 when NULL or
NA and as its parsed integer when it is Postgres-integer text within the
int4 range; when every candidate value in every row is of one of those
shapes, the three student sums succeed and equal the row-wise sums of
those contributions (any other value fails the whole query instead of
contributing 0 — non-integer text with the 22P02 cast error, per the
counterexample, and out-of-range integer text with the 22003 range
error). -/
theorem studentSums_cast_policy (rows : List Row)
    (h : ∀ r ∈ rows, ∀ c ∈ studentCols, castOk (rowGet r c) = true) :
    sumExcept rowStudentTotal rows = .ok ((rows.map specRowTotal).sum) ∧
      sumExcept rowStudentBoy rows = .ok ((rows.map specRowBoy).sum) ∧
      sumExcept rowStudentGirl rows = .ok ((rows.map specRowGirl).sum) := by
  refine ⟨sumExcept_eq_sum _ _ _ ?_, sumExcept_eq_sum _ _ _ ?_,
    sumExcept_eq_sum _ _ _ ?_⟩ <;> intro r hr
  · have h1 := coalesceCastNullif_eq_spec _ (h r hr "totalStudents" (by decide))
    have h2 := coalesceCastNullif_eq_spec _ (h r hr "total_students" (by decide))
    have h3 := coalesceCastNullif_eq_spec _ (h r hr "caste_total" (by decide))
    simp [rowStudentTotal, specRowTotal, addExcept, h1, h2, h3]
  · have h1 := coalesceCastNullif_eq_spec _ (h r hr "totalBoyStudents" (by decide))
    have h2 := coalesceCastNullif_eq_spec _ (h r hr "caste_total_boy" (by decide))
    simp [rowStudentBoy, specRowBoy, addExcept, h1, h2]
  · have h1 := coalesceCastNullif_eq_spec _ (h r hr "totalGirlStudents" (by decide))
    have h2 := coalesceCastNullif_eq_spec _ (h r hr "caste_total_girl" (by decide))
    simp [rowStudentGirl, specRowGirl, addExcept, h1, h2]

/-- C2 amended witness: two castable rows (one numeric, one all NA) sum
without error to the spec-side row sums. -/
theorem studentSums_cast_policy_witness :
    sumExcept rowStudentTotal
        [mkDashRow "1" "X" "Primary" "10", mkDashRow "2" "Y" "Sec" "NA"] =
      .ok (([mkDashRow "1" "X" "Primary" "10",
        mkDashRow "2" "Y" "Sec" "NA"].map specRowTotal).sum) :=
  (studentSums_cast_policy
    [mkDashRow "1" "X" "Primary" "10", mkDashRow "2" "Y" "Sec" "NA"]
    (by decide)).1

/-- Sorting by ORDER BY is a permutation of the grouped buckets. -/
theorem orderBy_perm {h : Type} (le : h → h → Bool) (l : List h) :
    (orderBy le l).Perm l :=
  List.perm_insertionSort _ l

/-- The per-bucket counts of a GROUP BY partition the grouped rows. -/
theorem sum_groupCounts (c : ColName) (rows : List Row) :
    ((groupCounts c rows).map NameCount.count).sum = rows.length := by
  unfold groupCounts
  rw [((orderBy_perm _ _).map NameCount.count).sum_eq, List.map_map]
  have := List.sum_map_count_dedup_eq_length (rows.map (fun r => rowGet r c))
  simpa [Function.comp] using this

/-- C8: the schools-by-category breakdown and the total row count are
computed over the same filtered row set, and the category buckets
partition it, so the sum of the per-category counts never exceeds (in
fact equals) totalRecords. -/
theorem dashboard_category_sum_le_total (st : DbState) (f : Filters)
    (stats : Stats) (h : getDashboardStats st f = .ok stats) :
    (stats.schoolsByCategory.map NameCount.count).sum ≤ stats.totalRecords := by
  obtain ⟨tbl, idxs⟩ := st
  cases tbl with
  | none =>
    simp only [getDashboardStats, Except.ok.injEq] at h
    subst h
    simp [emptyStats]
  | some t =>
    simp only [getDashboardStats] at h
    split at h
    · simp at h
    · split at h
      · simp at h
      · simp at h
      · simp at h
      · simp only [Except.ok.injEq] at h
        subst h
        simp [sum_groupCounts]

/-- C8 witness: on the populated state the per-category counts sum to at
most the reported total. -/
theorem dashboard_category_sum_le_total_witness :
    (dashStatsVal.schoolsByCategory.map NameCount.count).sum ≤
      dashStatsVal.totalRecords :=
  dashboard_category_sum_le_total dashDb noFilters dashStatsVal (by rfl)

/-! ### Lemmas about the conflict-skipping insert -/

theorem insertRows_length (arb : List ColName) (others : List (List ColName)) :
    ∀ (new cur : List Row) (cnt : Nat) (fin : List Row) (c : Nat),
      insertRows arb others cur cnt new = .ok (fin, c) →
      fin.length + cnt = cur.length + c := by
  intro new
  induction new with
  | nil =>
    intro cur cnt fin c h
    simp only [insertRows, Except.ok.injEq, Prod.mk.injEq] at h
    obtain ⟨h1, h2⟩ := h
    subst h1
    subst h2
    rfl
  | cons r rest ih =>
    intro cur cnt fin c h
    simp only [insertRows] at h
    split at h
    · exact ih cur cnt fin c h
    · split at h
      · simp at h
      · have := ih (cur ++ [r]) (cnt + 1) fin c h
        simp only [List.length_append, List.length_cons, List.length_nil] at this
        omega

theorem insertRows_conflict_mono (arb : List ColName)
    (others : List (List ColName)) :
    ∀ (new cur : List Row) (cnt : Nat) (fin : List Row) (c : Nat),
      insertRows arb others cur cnt new = .ok (fin, c) →
      ∀ r, cur.any (conflictsOn arb r) = true →
        fin.any (conflictsOn arb r) = true := by
  intro new
  induction new with
  | nil =>
    intro cur cnt fin c h r hr
    simp only [insertRows, Except.ok.injEq, Prod.mk.injEq] at h
    rw [← h.1]
    exact hr
  | cons r0 rest ih =>
    intro cur cnt fin c h r hr
    simp only [insertRows] at h
    split at h
    · exact ih cur cnt fin c h r hr
    · split at h
      · simp at h
      · exact ih (cur ++ [r0]) (cnt + 1) fin c h r
          (by simp [List.any_append, hr])

theorem conflictsOn_self (cols : List ColName) (r : Row)
    (h : (keysOf cols r).isSome = true) : conflictsOn cols r r = true := by
  obtain ⟨k, hk⟩ := Option.isSome_iff_exists.mp h
  unfold conflictsOn
  rw [hk]
  simp

theorem insertRows_mem_conflict (arb : List ColName)
    (others : List (List ColName)) :
    ∀ (new cur : List Row) (cnt : Nat) (fin : List Row) (c : Nat),
      insertRows arb others cur cnt new = .ok (fin, c) →
      (∀ r ∈ new, (keysOf arb r).isSome = true) →
      ∀ r ∈ new, fin.any (conflictsOn arb r) = true := by
  intro new
  induction new with
  | nil => intro cur cnt fin c _ _ r hr; simp at hr
  | cons r0 rest ih =>
    intro cur cnt fin c h hkeys r hr
    simp only [insertRows] at h
    split at h
    · rcases List.mem_cons.mp hr with rfl | hmem
      · rename_i hc
        exact insertRows_conflict_mono arb others rest cur cnt fin c h r hc
      · exact ih cur cnt fin c h (fun x hx => hkeys x (by simp [hx])) r hmem
    · split at h
      · simp at h
      · rcases List.mem_cons.mp hr with rfl | hmem
        · refine insertRows_conflict_mono arb others rest (cur ++ [r]) (cnt + 1)
            fin c h r ?_
          have hself := conflictsOn_self arb r (hkeys r (by simp))
          simp [List.any_append, hself]
        · exact ih (cur ++ [r0]) (cnt + 1) fin c h
            (fun x hx => hkeys x (by simp [hx])) r hmem

theorem insertRows_all_conflict (arb : List ColName)
    (others : List (List ColName)) :
    ∀ (new cur : List Row) (cnt : Nat),
      (∀ r ∈ new, cur.any (conflictsOn arb r) = true) →
      insertRows arb others cur cnt new = .ok (cur, cnt) := by
  intro new
  induction new with
  | nil => intro cur cnt _; rfl
  | cons r0 rest ih =>
    intro cur cnt h
    simp only [insertRows]
    rw [if_pos (h r0 (by simp))]
    exact ih cur cnt (fun x hx => h x (by simp [hx]))

/-! ### Lemmas about rows built from records -/

theorem rowGet_mkRow (cols : List ColName) (norm : JSVal → String)
    (rec : Rec) (c : ColName) (hc : c ∈ cols) :
    rowGet (mkRow cols norm rec) c = some (norm (jsGet rec c)) := by
  induction cols with
  | nil => simp at hc
  | cons c0 cs ih =>
    unfold mkRow rowGet
    simp only [List.map_cons, List.find?_cons]
    by_cases h0 : (c0 == c) = true
    · have : c0 = c := by simpa using h0
      subst this
      simp
    · rcases List.mem_cons.mp hc with rfl | hmem
      · simp at h0
      · simpa [h0, mkRow, rowGet] using ih hmem

theorem keysOf_isSome (cols : List ColName) (r : Row)
    (h : ∀ c ∈ cols, (rowGet r c).isSome = true) :
    (keysOf cols r).isSome = true := by
  unfold keysOf
  rw [if_pos]
  · rfl
  · rw [List.all_eq_true]
    intro o ho
    obtain ⟨c, hc, rfl⟩ := List.mem_map.mp ho
    exact h c hc

/-! ### Lemmas about schema reconciliation and index creation -/

theorem mem_reconcileCols (cols new : List ColName) (c : ColName)
    (hc : c ∈ new) : c ∈ reconcileCols cols new := by
  unfold reconcileCols
  by_cases hin : c ∈ cols
  · exact List.mem_append_left _ hin
  · refine List.mem_append_right _ (List.mem_filter.mpr ⟨hc, ?_⟩)
    simpa using hin

theorem reconcileCols_self (cols new : List ColName)
    (h : ∀ c ∈ new, c ∈ cols) : reconcileCols cols new = cols := by
  unfold reconcileCols
  rw [List.filter_eq_nil_iff.mpr, List.append_nil]
  intro a ha
  simp [h a ha]

theorem createUniqueIndex_sub (nm : String) (cols : List ColName) (t : Table)
    (idxs idxs' : List IndexDef)
    (h : createUniqueIndex nm cols t idxs = .ok idxs') :
    ∀ i ∈ idxs', i ∈ idxs ∨ i = ⟨nm, cols⟩ := by
  unfold createUniqueIndex at h
  split at h
  · intro i hi
    simp only [Except.ok.injEq] at h
    exact Or.inl (h ▸ hi)
  · split at h
    · simp at h
    · split at h
      · simp at h
      · intro i hi
        simp only [Except.ok.injEq] at h
        rw [← h] at hi
        rcases List.mem_append.mp hi with hl | hr
        · exact Or.inl hl
        · simp only [List.mem_singleton] at hr
          exact Or.inr hr

theorem createUniqueIndex_ok_named (nm : String) (cols : List ColName)
    (t : Table) (idxs idxs' : List IndexDef)
    (h : createUniqueIndex nm cols t idxs = .ok idxs') :
    idxs'.any (fun i => i.name == nm) = true := by
  unfold createUniqueIndex at h
  split at h
  · rename_i hany
    simp only [Except.ok.injEq] at h
    rw [← h]
    exact hany
  · split at h
    · simp at h
    · split at h
      · simp at h
      · simp only [Except.ok.injEq] at h
        rw [← h]
        simp [List.any_append]

/-- A save body whose batch columns, rows and indexes are already
reconciled is a complete no-op reporting zero inserts. -/
theorem saveBody_noop (tcols : List ColName) (rows1 : List Row)
    (idxs2 : List IndexDef) (batch : List Rec)
    (hayb : (inputColumnsOf batch).contains "ay" = true)
    (hsub : ∀ c ∈ inputColumnsOf batch, c ∈ tcols)
    (hfilters : ∀ i ∈ idxs2, i.name ≠ "idx_udise_code_unique")
    (hnamed : idxs2.any (fun i => i.name == "idx_udise_ay_unique") = true)
    (harb : (idxs2.any (fun i => i.cols == ["udise_code", "ay"])) = true)
    (hconf : ∀ v ∈ batch.map (mkRow (inputColumnsOf batch) storedAy),
      rows1.any (conflictsOn ["udise_code", "ay"] v) = true) :
    saveBody ⟨some ⟨tcols, rows1⟩, idxs2⟩ batch =
      .ok (⟨some ⟨tcols, rows1⟩, idxs2⟩, ⟨true, 0⟩) := by
  unfold saveBody
  rw [if_pos hayb]
  simp only
  rw [List.filter_eq_self.mpr (fun i hi => by simpa using hfilters i hi)]
  rw [reconcileCols_self _ _ hsub]
  unfold createUniqueIndex
  rw [if_pos hnamed]
  simp only
  unfold runInsert
  simp only [harb, Bool.not_true, Bool.false_eq_true, if_false]
  rw [insertRows_all_conflict _ _ _ _ _ hconf]

/-- C5 amended: for a batch whose field set carries both udise_code and
ay, a successful save reports exactly the number of rows added to the
table, and re-ingesting the same batch leaves the state untouched and
reports count 0.  (The claim's universal form over every non-empty batch
fails: per the counterexample, a batch without ay against the fresh
database throws on both ingests instead of reporting 0.) -/
theorem saveSchools_ay_reingest_idempotent (st st1 : DbState)
    (batch : List Rec) (n : Nat)
    (hay : "ay" ∈ inputColumnsOf batch)
    (hu : "udise_code" ∈ inputColumnsOf batch)
    (h : saveSchoolsToDb st batch = (st1, .ok ⟨true, n⟩)) :
    tableRowCount st1 = tableRowCount st + n ∧
      saveSchoolsToDb st1 batch = (st1, .ok ⟨true, 0⟩) := by
  have hayb : (inputColumnsOf batch).contains "ay" = true := by simpa using hay
  have hbne : batch.isEmpty = false := by
    cases batch with
    | nil => simp [inputColumnsOf] at hay
    | cons a l => rfl
  have hkeys : ∀ v ∈ batch.map (mkRow (inputColumnsOf batch) storedAy),
      (keysOf ["udise_code", "ay"] v).isSome = true := by
    intro v hv
    obtain ⟨rec, _, rfl⟩ := List.mem_map.mp hv
    refine keysOf_isSome _ _ ?_
    intro c hc
    rcases List.mem_cons.mp hc with rfl | hc'
    · rw [rowGet_mkRow _ _ _ _ hu]; rfl
    · simp only [List.mem_singleton] at hc'
      subst hc'
      rw [rowGet_mkRow _ _ _ _ hay]; rfl
  unfold saveSchoolsToDb at h
  rw [hbne] at h
  simp only [Bool.false_eq_true, if_false] at h
  cases hsb : saveBody st batch with
  | error e => rw [hsb] at h; simp at h
  | ok v =>
    obtain ⟨v1, v2⟩ := v
    rw [hsb] at h
    simp only [Prod.mk.injEq, Except.ok.injEq] at h
    obtain ⟨hv1, hv2⟩ := h
    subst hv1
    subst hv2
    unfold saveBody at hsb
    rw [if_pos hayb] at hsb
    set T := (match st.table with
      | none => ({ cols := inputColumnsOf batch, rows := [] } : Table)
      | some t0 =>
        { t0 with cols := reconcileCols t0.cols (inputColumnsOf batch) })
      with hT
    cases hci : createUniqueIndex "idx_udise_ay_unique" ["udise_code", "ay"]
        T (st.indexes.filter (fun i => i.name ≠ "idx_udise_code_unique")) with
    | error e => rw [hci] at hsb; simp at hsb
    | ok idxs2 =>
      rw [hci] at hsb
      simp only at hsb
      unfold runInsert at hsb
      split at hsb
      · simp at hsb
      · rename_i harbF
        have harb : (idxs2.any (fun i => i.cols == ["udise_code", "ay"])) = true := by
          simpa using harbF
        cases hins : insertRows ["udise_code", "ay"]
            ((idxs2.filter (fun i => i.cols ≠ ["udise_code", "ay"])).map IndexDef.cols)
            T.rows 0 (batch.map (mkRow (inputColumnsOf batch) storedAy)) with
        | error e => rw [hins] at hsb; simp at hsb
        | ok p =>
          obtain ⟨rows1, cnt⟩ := p
          rw [hins] at hsb
          simp only [Except.ok.injEq, Prod.mk.injEq, SaveResult.mk.injEq,
            true_and] at hsb
          obtain ⟨hst1, hcnt⟩ := hsb
          subst hcnt
          subst hst1
          have hTrows : T.rows.length = tableRowCount st := by
            rw [hT]
            unfold tableRowCount
            cases st.table <;> rfl
          have hlen := insertRows_length _ _ _ _ _ _ _ hins
          constructor
          · have hL : tableRowCount ⟨some { T with rows := rows1 }, idxs2⟩ =
                rows1.length := rfl
            rw [hL, ← hTrows]
            omega
          · have hsub : ∀ c ∈ inputColumnsOf batch, c ∈ T.cols := by
              rw [hT]
              cases st.table with
              | none => intro c hc; simpa using hc
              | some t0 => intro c hc; exact mem_reconcileCols _ _ _ hc
            have hfilters : ∀ i ∈ idxs2, i.name ≠ "idx_udise_code_unique" := by
              intro i hi
              rcases createUniqueIndex_sub _ _ _ _ _ hci i hi with hmem | rfl
              · have h2 := (List.mem_filter.mp hmem).2
                simpa using h2
              · simp
            have hnamed := createUniqueIndex_ok_named _ _ _ _ _ hci
            have hconf := insertRows_mem_conflict _ _ _ _ _ _ _ hins hkeys
            unfold saveSchoolsToDb
            rw [hbne]
            simp only [Bool.false_eq_true, if_false]
            rw [saveBody_noop T.cols rows1 idxs2 batch hayb hsub hfilters
              hnamed harb hconf]

/-- C5 amended witness: the two-record ay batch ingests with count 2 and
re-ingests as a no-op with count 0. -/
theorem saveSchools_ay_reingest_idempotent_witness :
    tableRowCount ayDb1 = tableRowCount freshDb + 2 ∧
      saveSchoolsToDb ayDb1 ayBatch = (ayDb1, .ok ⟨true, 0⟩) :=
  saveSchools_ay_reingest_idempotent freshDb ayDb1 ayBatch 2 (by decide)
    (by decide) (by rfl)

/-- C5 counterexample: against the fresh database, a batch without ay
fails outright (no arbiter unique index survives the DROP INDEX), and the
second identical call fails the same way instead of reporting a count of
0 — so the claimed idempotent re-ingest does not hold for every non-empty
batch. -/
theorem saveSchools_noAy_reingest_fails :
    (saveSchoolsToDb freshDb noAyBatch).2 = .error arbiterMissingErr ∧
      (saveSchoolsToDb (saveSchoolsToDb freshDb noAyBatch).1 noAyBatch).2 =
        .error arbiterMissingErr ∧
      (saveSchoolsToDb (saveSchoolsToDb freshDb noAyBatch).1 noAyBatch).2 ≠
        .ok ⟨true, 0⟩ := by
  refine ⟨rfl, rfl, ?_⟩
  intro hc
  have h2 : (Except.error arbiterMissingErr : Except DbError SaveResult) =
      .ok ⟨true, 0⟩ := hc
  simp at h2

/-- The service-level verification succeeds exactly when some stored
token row matches the presented token, is unexpired, and joins to an
active user. -/
theorem verifyToken_isSome_iff (db : AuthDb) (tk : String) :
    (verifyToken db tk).isSome = true ↔
      ∃ t ∈ db.tokens, t.token = tk ∧ db.now < t.expires_at ∧
        ∃ u ∈ db.users, u.user_id = t.user_id ∧ u.status = "active" := by
  unfold verifyToken
  rw [Option.isSome_map']
  rw [List.head?_isSome]
  have key : verifyTokenQuery db tk ≠ [] ↔ ∃ p, p ∈ verifyTokenQuery db tk := by
    constructor
    · intro h
      cases hq : verifyTokenQuery db tk with
      | nil => exact absurd hq h
      | cons a l => exact ⟨a, by simp [hq]⟩
    · rintro ⟨p, hp⟩ hq
      rw [hq] at hp
      simp at hp
  rw [key]
  unfold verifyTokenQuery
  simp only [List.mem_filter, List.mem_flatMap, List.mem_map, Bool.and_eq_true,
    beq_iff_eq, decide_eq_true_eq]
  constructor
  · rintro ⟨p, ⟨t, ht, u, ⟨hu, huid⟩, rfl⟩, ⟨htok, hexp⟩, hstat⟩
    exact ⟨t, ht, htok, hexp, u, hu, huid, hstat⟩
  · rintro ⟨t, ht, htok, hexp, u, hu, huid, hstat⟩
    exact ⟨(t, u), ⟨t, ht, u, ⟨hu, huid⟩, rfl⟩, ⟨htok, hexp⟩, hstat⟩


/-- C9: the verifyToken middleware grants access exactly when the
presented bearer token exists, its expiry is in the future, and its
user's status is active; in every other case — including a valid
unexpired token of a deactivated user — the outcome is the 401 denial
(the middleware's only non-granting outcome). -/
theorem verifyToken_requires_active_user (db : AuthDb) (header : Option String) :
    isGranted (verifyTokenMw db header) = true ↔
      ∃ tk, extractToken header = some tk ∧ tk ≠ "" ∧
        ∃ t ∈ db.tokens, t.token = tk ∧ db.now < t.expires_at ∧
          ∃ u ∈ db.users, u.user_id = t.user_id ∧ u.status = "active" := by
  cases header with
  | none => simp [verifyTokenMw, extractToken, isGranted]
  | some hd =>
    simp only [verifyTokenMw, extractToken, Option.map_some']
    by_cases he : replaceFirst hd "Bearer " = ""
    · rw [if_pos he]
      simp [isGranted, he]
    · rw [if_neg he]
      cases hvt : verifyToken db (replaceFirst hd "Bearer ") with
      | none =>
        simp only [isGranted]
        constructor
        · intro h
          exact absurd h (by simp)
        · rintro ⟨tk, htk, hne, rest⟩
          rw [Option.some.injEq] at htk
          subst htk
          have hs := (verifyToken_isSome_iff db _).mpr rest
          rw [hvt] at hs
          simp at hs
      | some a =>
        simp only [isGranted]
        constructor
        · intro _
          refine ⟨replaceFirst hd "Bearer ", rfl, he, ?_⟩
          exact (verifyToken_isSome_iff db _).mp (by rw [hvt]; rfl)
        · intro _
          trivial


end UdiseBase
